import Mathlib

/-!
Verification development for the Lambda import/upload pipelines of the
aws-toolkit-vscode module: the handler-to-filename resolver
(`getLambdaFileNameFromHandler`), the import pipeline
(`runImportLambda` / `downloadAndUnzipLambda` / `openLambdaFile`), and
upload Strategy C (`runUploadLambdaWithSamBuild` with the SAM build step,
`zipAndUploadDirectory` and `uploadZipBuffer`).

Strings are embedded as Lean `String`s; the lodash
`split('.') / initial() / join('.')` chain is embedded by `splitDot` and
`joinDot` on the underlying character lists, which reproduce the
JavaScript semantics of `split` with a one-character separator (splitting
an input with no separator yields a one-element list, so the empty string
splits to `[""]`).

The stateful pipelines are embedded by explicit environments recording the
outcome of each collaborator call (remote GetFunction, the streaming
download, zip extraction, editor open, launch-config write, SAM template
generation, SAM build, folder zipping, UpdateFunctionCode); each pipeline
function is a pure function of its environment returning its
telemetry result together with the observable trace the claims speak
about (progress increments reported to the progress sink, whether the
build and deploy collaborators were invoked, which directory was packed).
Fallible awaited steps are embedded as `Except`: an error value at a step
propagates to the enclosing try/catch exactly as a thrown exception does
in the source.
-/

namespace AwsToolkit

/-- Runtime family classification, from the spec's data model: Python, NodeJS,
or any other family (the source switch only distinguishes Python, NodeJS and
a default case, so all remaining families behave identically here). -/
inductive RuntimeFamily where
  | Python
  | NodeJS
  | Other
deriving DecidableEq, Repr

/-- Modelled from the spec: the runtime-family classifier `getFamily` lives in
`shared` code (`samLambdaRuntime`) that is not among the provided sources. The
spec derives the family from the runtime identifier (examples: `python3.8` is
Python, `nodejs` is NodeJS, everything else is an unsupported family). -/
def getFamily (runtime : String) : RuntimeFamily :=
  if List.isPrefixOf "python".data runtime.data then RuntimeFamily.Python
  else if List.isPrefixOf "nodejs".data runtime.data then RuntimeFamily.NodeJS
  else RuntimeFamily.Other

/-- JavaScript `String.split` with the one-character separator `.`, on
character lists: `splitDot "a.b" = [[a], [b]]`, `splitDot [] = [[]]`. -/
def splitDot : List Char → List (List Char)
  | [] => [[]]
  | c :: rest =>
      match splitDot rest with
      | [] => [[]]
      | s :: ss => if c = '.' then [] :: s :: ss else (c :: s) :: ss

/-- Lodash `join('.')` on character lists: interleaves a dot between the
segments. -/
def joinDot : List (List Char) → List Char
  | [] => []
  | [s] => s
  | s :: t :: rest => s ++ '.' :: joinDot (t :: rest)

/-- Embeds `getLambdaFileNameFromHandler` (part_000, lines 236 to 255): pick the
extension from the runtime family (`py` for Python, `js` for NodeJS, an error
naming the runtime identifier otherwise), then strip the last dot-segment of
the handler with `split('.').initial().join('.')` and append a dot and the
extension. -/
def getLambdaFileNameFromHandler (runtime : String) (handler : String) :
    Except String String :=
  match getFamily runtime with
  | RuntimeFamily.Python =>
      Except.ok (String.mk (joinDot ((splitDot handler.data).dropLast) ++ '.' :: ['p', 'y']))
  | RuntimeFamily.NodeJS =>
      Except.ok (String.mk (joinDot ((splitDot handler.data).dropLast) ++ '.' :: ['j', 's']))
  | RuntimeFamily.Other =>
      Except.error ("Toolkit does not currently support imports for runtime: " ++ runtime)

/-- Outcome of the streaming artifact download (part_000, lines 147 to 162):
either the transfer completes, or one of the transport errors of the claim
occurs. -/
inductive FetchOutcome where
  | success
  | connectionFailure
  | non2xxResponse
  | writeFailure
deriving DecidableEq, Repr

/-- Whether the fetch completed. -/
def FetchOutcome.isSuccess : FetchOutcome → Bool
  | FetchOutcome.success => true
  | _ => false

/-- Errors thrown inside the import pipeline: `importError` embeds the
`ImportError` class thrown by `downloadAndUnzipLambda`; `plainError` embeds
every other thrown `Error` (missing handler file, editor open failure,
launch-config write failure). -/
inductive PipelineError where
  | importError
  | plainError
deriving DecidableEq, Repr

/-- Telemetry result values used by both pipelines. -/
inductive TelemetryResult where
  | Succeeded
  | Failed
  | Cancelled
deriving DecidableEq, Repr

/-- Environment of one import-pipeline run: the outcome of each collaborator
call made by `runImportLambda` after the user confirmed the destination. -/
structure ImportEnv where
  getFunctionOk : Bool
  fetch : FetchOutcome
  unzipOk : Bool
  handlerFileExists : Bool
  openDocumentOk : Bool
  addLaunchConfigOk : Bool
deriving DecidableEq, Repr

/-- Idealized embedding of `downloadAndUnzipLambda` (part_000, lines 122 to
189) in which every step error reaches the enclosing try/catch and is
rethrown as `ImportError` — the routing the catch clause is written for. The
success path and the progress trace (10 after GetFunction returns, 70 after
the download completes, 10 after extraction succeeds) are exactly the
source's; the actual settling behaviour of the source's reject-less download
and extraction promises is embedded separately by
`downloadAndUnzipLambdaActual`. -/
def downloadAndUnzipLambda (env : ImportEnv) :
    Except PipelineError Unit × List Nat :=
  if env.getFunctionOk then
    if env.fetch.isSuccess then
      if env.unzipOk then (Except.ok (), [10, 70, 10])
      else (Except.error PipelineError.importError, [10, 70])
    else (Except.error PipelineError.importError, [10])
  else (Except.error PipelineError.importError, [])

/-- Embeds `openLambdaFile` (part_000, lines 191 to 205): a missing handler
file throws a plain `Error`, and so does a failure of the editor open. -/
def openLambdaFile (env : ImportEnv) : Except PipelineError Unit :=
  if env.handlerFileExists then
    if env.openDocumentOk then Except.ok ()
    else Except.error PipelineError.plainError
  else Except.error PipelineError.plainError

/-- Embeds `addLaunchConfigEntry` (part_000, lines 207 to 229): any failure is
a plain `Error`. -/
def addLaunchConfigEntry (env : ImportEnv) : Except PipelineError Unit :=
  if env.addLaunchConfigOk then Except.ok ()
  else Except.error PipelineError.plainError

/-- Embeds the catch clause of `runImportLambda` (part_000, lines 108 to 117):
an `ImportError` is a definite failure, any other error still counts as
success. -/
def catchToResult : PipelineError → TelemetryResult
  | PipelineError.importError => TelemetryResult.Failed
  | PipelineError.plainError => TelemetryResult.Succeeded

/-- Embeds the progress-callback body of `runImportLambda` (part_000, lines
100 to 118): download and unzip, then open the handler file, then add the
launch-config entry; the first error reaches the catch clause. The second
component is the progress trace reported during the run. -/
def runImportLambda (env : ImportEnv) : TelemetryResult × List Nat :=
  match downloadAndUnzipLambda env with
  | (Except.error e, prog) => (catchToResult e, prog)
  | (Except.ok _, prog) =>
      match openLambdaFile env with
      | Except.error e => (catchToResult e, prog)
      | Except.ok _ =>
          match addLaunchConfigEntry env with
          | Except.error e => (catchToResult e, prog)
          | Except.ok _ => (TelemetryResult.Succeeded, prog)

/-- Result of an async function whose awaited promises may never settle:
either the function returned (normally or through its catch clause), or one
of its awaited promises never resolves and the function stays suspended
forever. -/
inductive AsyncResult where
  | returned (r : Except PipelineError Unit)
  | hung
deriving Repr

/-- Telemetry outcome of a pipeline run that may never return. -/
inductive AsyncTelemetry where
  | returned (r : TelemetryResult)
  | hung
deriving DecidableEq, Repr

/-- Environment of one import run under the faithful promise semantics. The
extraction step is split into the synchronous `new AdmZip(downloadLocation)`
constructor (`zipCtorOk`, it parses the file and its throw happens inside the
promise executor) and the error argument later delivered to the
`extractAllToAsync` callback (`extractCallbackOk`). -/
structure ImportRunEnv where
  getFunctionOk : Bool
  fetch : FetchOutcome
  zipCtorOk : Bool
  extractCallbackOk : Bool
  handlerFileExists : Bool
  openDocumentOk : Bool
  addLaunchConfigOk : Bool
deriving DecidableEq, Repr

/-- Faithful embedding of the promise behaviour of `downloadAndUnzipLambda`
(part_000, lines 122 to 189):
- a GetFunction rejection is awaited directly, so it reaches the try/catch
  and is rethrown as `ImportError`;
- the download is wrapped in `new Promise(resolve => ...)` with no reject: on
  a connection failure the `error` handler's `throw err` runs after the
  executor has returned, so it never settles the promise and the function
  hangs at the `await`; a write-stream failure has no handler at all and
  likewise never settles the promise; a non-2xx response emits `response` and
  `complete` like a success, so the error body is written to `function.zip`,
  the promise resolves, and the 70-percent increment is reported;
- `new AdmZip(downloadLocation)` parses the file synchronously inside the
  second executor, so its throw on a corrupt archive rejects and reaches the
  catch as `ImportError`; an error delivered to the `extractAllToAsync`
  callback is thrown after that executor returned, so the promise never
  settles and the function hangs. -/
def downloadAndUnzipLambdaActual (env : ImportRunEnv) : AsyncResult × List Nat :=
  if env.getFunctionOk then
    match env.fetch with
    | FetchOutcome.connectionFailure => (AsyncResult.hung, [10])
    | FetchOutcome.writeFailure => (AsyncResult.hung, [10])
    | FetchOutcome.success =>
        if env.zipCtorOk then
          if env.extractCallbackOk then (AsyncResult.returned (Except.ok ()), [10, 70, 10])
          else (AsyncResult.hung, [10, 70])
        else (AsyncResult.returned (Except.error PipelineError.importError), [10, 70])
    | FetchOutcome.non2xxResponse =>
        if env.zipCtorOk then
          if env.extractCallbackOk then (AsyncResult.returned (Except.ok ()), [10, 70, 10])
          else (AsyncResult.hung, [10, 70])
        else (AsyncResult.returned (Except.error PipelineError.importError), [10, 70])
  else (AsyncResult.returned (Except.error PipelineError.importError), [])

/-- Faithful embedding of the progress-callback body of `runImportLambda`
(part_000, lines 100 to 118) on top of `downloadAndUnzipLambdaActual`: a hung
download/extract step suspends the whole body forever; a returned error
reaches the catch clause; the post-import steps throw awaited plain errors
exactly as in the idealized embedding. -/
def runImportLambdaActual (env : ImportRunEnv) : AsyncTelemetry × List Nat :=
  match downloadAndUnzipLambdaActual env with
  | (AsyncResult.hung, prog) => (AsyncTelemetry.hung, prog)
  | (AsyncResult.returned (Except.error e), prog) =>
      (AsyncTelemetry.returned (catchToResult e), prog)
  | (AsyncResult.returned (Except.ok _), prog) =>
      if env.handlerFileExists then
        if env.openDocumentOk then
          if env.addLaunchConfigOk then
            (AsyncTelemetry.returned TelemetryResult.Succeeded, prog)
          else (AsyncTelemetry.returned (catchToResult PipelineError.plainError), prog)
        else (AsyncTelemetry.returned (catchToResult PipelineError.plainError), prog)
      else (AsyncTelemetry.returned (catchToResult PipelineError.plainError), prog)

/-- Path concatenation, embedding `path.join` of two components. -/
def pathJoin (a b : String) : String := a ++ "/" ++ b

/-- Name given to the single template resource in Strategy C
(uploadLambda.ts, line 199). -/
def resourceName : String := "tempResource"

/-- Environment of one Strategy C upload run: function configuration, the
selected directory, the filesystem and the user's answer to the
missing-handler confirmation, and the outcome of each collaborator call. -/
structure UploadEnv where
  runtime : String
  handler : String
  parentDir : String
  fileExists : String → Bool
  confirmMissingHandler : Bool
  tempDir : String
  templateGenOk : Bool
  buildOk : Bool
  zipOk : Bool
  updateFunctionCodeOk : Bool

/-- Observable outcome of one Strategy C run: the telemetry result, the
handler path probed by the pre-build check (none when the resolver threw),
whether the SAM build collaborator was invoked, whether the remote
UpdateFunctionCode operation was invoked, and the directory that was packed
into the archive (none when nothing was packed). -/
structure UploadOutcome where
  result : TelemetryResult
  handlerPathChecked : Option String
  buildInvoked : Bool
  deployInvoked : Bool
  zippedDir : Option String
deriving DecidableEq, Repr

/-- Embeds `uploadZipBuffer` (uploadLambda.ts, lines 255 to 272): the remote
code-update call is made, and any error it throws is caught and reported as
`Failed`. Second component: the deploy call was invoked. -/
def uploadZipBuffer (env : UploadEnv) : TelemetryResult × Bool :=
  if env.updateFunctionCodeOk then (TelemetryResult.Succeeded, true)
  else (TelemetryResult.Failed, true)

/-- Embeds `zipAndUploadDirectory` (uploadLambda.ts, lines 233 to 253): pack
the given directory into a buffer, then upload it; a packing error is caught
and reported as `Failed` without any deploy call. Components: result, whether
deploy was invoked, the directory actually packed. -/
def zipAndUploadDirectory (env : UploadEnv) (p : String) :
    TelemetryResult × Bool × Option String :=
  if env.zipOk then
    match uploadZipBuffer env with
    | (r, d) => (r, d, some p)
  else (TelemetryResult.Failed, false, none)

/-- The handler path probed by the pre-build check of
`runUploadLambdaWithSamBuild` (uploadLambda.ts, line 167): the resolved
handler file name joined under the selected directory, or none when the
resolver threw and the catch clause skipped the check. -/
def checkedHandlerPath (env : UploadEnv) : Option String :=
  match getLambdaFileNameFromHandler env.runtime env.handler with
  | Except.ok name => some (pathJoin env.parentDir name)
  | Except.error _ => none

/-- Whether the pre-build handler check ends the run with `Cancelled`
(uploadLambda.ts, lines 168 to 187): the handler file was probed, it is
absent, and the user declined the confirmation. A skipped check (resolver
error) never cancels. -/
def handlerCheckCancelled (env : UploadEnv) : Bool :=
  match checkedHandlerPath env with
  | some p => !env.fileExists p && !env.confirmMissingHandler
  | none => false

/-- Embeds `runUploadLambdaWithSamBuild` (uploadLambda.ts, lines 147 to 231)
from the point where a directory has been selected. First the handler check:
resolve the handler file name inside the selected directory (a resolver error
is caught and the check is skipped); if the file is absent, ask the user and
return `Cancelled` unless they confirm. Then, inside the second try block:
generate the template, run the SAM build into `tempDir/output`, and pack and
upload the `resourceName` subdirectory of the build output; any error there
is caught and reported as `Failed`. -/
def runUploadLambdaWithSamBuild (env : UploadEnv) : UploadOutcome :=
  if handlerCheckCancelled env then
    UploadOutcome.mk TelemetryResult.Cancelled (checkedHandlerPath env) false false none
  else if !env.templateGenOk then
    UploadOutcome.mk TelemetryResult.Failed (checkedHandlerPath env) false false none
  else if !env.buildOk then
    UploadOutcome.mk TelemetryResult.Failed (checkedHandlerPath env) true false none
  else
    match zipAndUploadDirectory env (pathJoin (pathJoin env.tempDir "output") resourceName) with
    | (r, d, z) => UploadOutcome.mk r (checkedHandlerPath env) true d z

/-- Cumulative totals reported after each progress increment. -/
def cumulativeSums (l : List Nat) : List Nat :=
  (List.range (l.length + 1)).map (fun i => (l.take i).sum)

/-- Boolean check that a list is non-decreasing. -/
def nondecreasing : List Nat → Bool
  | [] => true
  | [_] => true
  | a :: b :: rest => decide (a ≤ b) && nondecreasing (b :: rest)

/- ### Lemmas about `splitDot` and `joinDot` -/

theorem splitDot_ne_nil (s : List Char) : splitDot s ≠ [] := by
  cases s with
  | nil => simp [splitDot]
  | cons c rest =>
      simp only [splitDot]
      cases h : splitDot rest with
      | nil => simp
      | cons a as =>
          by_cases hc : c = '.' <;> simp [hc]

theorem splitDot_no_dot (s : List Char) (h : '.' ∉ s) : splitDot s = [s] := by
  induction s with
  | nil => rfl
  | cons c rest ih =>
      have hc : c ≠ '.' := fun hcc => h (hcc ▸ List.mem_cons_self c rest)
      have hrest : '.' ∉ rest := fun hr => h (List.mem_cons_of_mem c hr)
      simp only [splitDot, ih hrest]
      simp [hc]

theorem splitDot_append (s t : List Char) (h : List Char) (r : List (List Char))
    (hnd : '.' ∉ s) (ht : splitDot t = h :: r) :
    splitDot (s ++ t) = (s ++ h) :: r := by
  induction s with
  | nil => simpa using ht
  | cons c cs ih =>
      have hc : c ≠ '.' := fun hcc => hnd (hcc ▸ List.mem_cons_self c cs)
      have hcs : '.' ∉ cs := fun hr => hnd (List.mem_cons_of_mem c hr)
      have ihr := ih hcs
      simp only [List.cons_append, splitDot, List.append_eq]
      rw [ihr]
      simp [hc]

theorem splitDot_dot_cons (t : List Char) :
    splitDot ('.' :: t) = [] :: splitDot t := by
  simp only [splitDot]
  cases h : splitDot t with
  | nil => exact absurd h (splitDot_ne_nil t)
  | cons a as => simp

theorem joinDot_cons_cons (s t : List Char) (rest : List (List Char)) :
    joinDot (s :: t :: rest) = s ++ '.' :: joinDot (t :: rest) := rfl

theorem splitDot_joinDot (ss : List (List Char)) (hne : ss ≠ [])
    (hdot : ∀ s ∈ ss, '.' ∉ s) : splitDot (joinDot ss) = ss := by
  induction ss with
  | nil => exact absurd rfl hne
  | cons s rest ih =>
      cases rest with
      | nil =>
          simp only [joinDot]
          exact splitDot_no_dot s (hdot s (List.mem_cons_self s []))
      | cons s2 rest2 =>
          have hdrest : ∀ x ∈ s2 :: rest2, '.' ∉ x :=
            fun x hx => hdot x (List.mem_cons_of_mem s hx)
          have ihr : splitDot (joinDot (s2 :: rest2)) = s2 :: rest2 :=
            ih (by simp) hdrest
          have hdotstep : splitDot ('.' :: joinDot (s2 :: rest2)) = [] :: s2 :: rest2 := by
            rw [splitDot_dot_cons, ihr]
          have happ := splitDot_append s ('.' :: joinDot (s2 :: rest2)) [] (s2 :: rest2)
            (hdot s (List.mem_cons_self s (s2 :: rest2))) hdotstep
          rw [joinDot_cons_cons, happ]
          simp

/- ### Claim C1 -/

/-- C1: for every supported runtime family (Python or NodeJS) and every
handler built from at least two dot-free segments joined with dots (hence
containing at least one dot), the resolver returns the handler with exactly
its last dot-separated segment removed, the remaining segments joined with
dots, and the family's extension appended (`py` for Python, `js` for
NodeJS). -/
theorem getLambdaFileNameFromHandler_strips_last_segment
    (runtime handler : String) (ss : List (List Char))
    (hseg : ∀ s ∈ ss, '.' ∉ s) (hlen : 2 ≤ ss.length)
    (hh : handler.data = joinDot ss) :
    (getFamily runtime = RuntimeFamily.Python →
      getLambdaFileNameFromHandler runtime handler =
        Except.ok (String.mk (joinDot ss.dropLast ++ '.' :: ['p', 'y']))) ∧
    (getFamily runtime = RuntimeFamily.NodeJS →
      getLambdaFileNameFromHandler runtime handler =
        Except.ok (String.mk (joinDot ss.dropLast ++ '.' :: ['j', 's']))) := by
  have hne : ss ≠ [] := by
    intro hcon
    rw [hcon] at hlen
    simp at hlen
  have hsplit : splitDot handler.data = ss := by
    rw [hh]
    exact splitDot_joinDot ss hne hseg
  constructor <;> intro hfam <;>
    simp [getLambdaFileNameFromHandler, hfam, hsplit]

/-- Witness for C1 at runtime `python3.8`, handler `app.handler` and at
runtime `nodejs12.x`, handler `a.b.c.main`. -/
theorem getLambdaFileNameFromHandler_strips_last_segment_witness :
    getLambdaFileNameFromHandler "python3.8" "app.handler" = Except.ok "app.py" ∧
    getLambdaFileNameFromHandler "nodejs12.x" "a.b.c.main" = Except.ok "a.b.c.js" := by
  constructor
  · have h := getLambdaFileNameFromHandler_strips_last_segment "python3.8" "app.handler"
      [['a', 'p', 'p'], ['h', 'a', 'n', 'd', 'l', 'e', 'r']]
      (by decide) (by decide) (by decide)
    exact (h.1 (by decide)).trans rfl
  · have h := getLambdaFileNameFromHandler_strips_last_segment "nodejs12.x" "a.b.c.main"
      [['a'], ['b'], ['c'], ['m', 'a', 'i', 'n']]
      (by decide) (by decide) (by decide)
    exact (h.2 (by decide)).trans rfl

/- ### Claim C2 -/

/-- C2: for every runtime identifier whose family is neither Python nor
NodeJS, the resolver fails with an error message naming the offending runtime
identifier and never returns a filename. -/
theorem getLambdaFileNameFromHandler_unsupported_runtime
    (runtime handler : String) (hfam : getFamily runtime = RuntimeFamily.Other) :
    getLambdaFileNameFromHandler runtime handler =
      Except.error ("Toolkit does not currently support imports for runtime: " ++ runtime) ∧
    ∀ f : String, getLambdaFileNameFromHandler runtime handler ≠ Except.ok f := by
  constructor
  · simp [getLambdaFileNameFromHandler, hfam]
  · intro f hcon
    rw [getLambdaFileNameFromHandler, hfam] at hcon
    exact Except.noConfusion hcon

/-- Witness for C2 at runtime `java11`. -/
theorem getLambdaFileNameFromHandler_unsupported_runtime_witness :
    getLambdaFileNameFromHandler "java11" "app.handler" =
      Except.error ("Toolkit does not currently support imports for runtime: " ++ "java11") ∧
    getLambdaFileNameFromHandler "java11" "app.handler" ≠ Except.ok "app.py" := by
  have h := getLambdaFileNameFromHandler_unsupported_runtime "java11" "app.handler" (by decide)
  exact ⟨h.1, h.2 "app.py"⟩

/- ### Claim C10 -/

/-- C10: for every supported runtime family the resolver is total over
handler strings: a handler containing no dot yields a filename with an empty
base, a bare dot followed by the extension. -/
theorem getLambdaFileNameFromHandler_no_dot
    (runtime handler : String) (hdot : '.' ∉ handler.data) :
    (getFamily runtime = RuntimeFamily.Python →
      getLambdaFileNameFromHandler runtime handler = Except.ok ".py") ∧
    (getFamily runtime = RuntimeFamily.NodeJS →
      getLambdaFileNameFromHandler runtime handler = Except.ok ".js") := by
  have hsplit : splitDot handler.data = [handler.data] := splitDot_no_dot _ hdot
  constructor <;> intro hfam <;>
    simp [getLambdaFileNameFromHandler, hfam, hsplit, joinDot]

/-- Witness for C10 at runtime `python3.8`, handler `handler`. -/
theorem getLambdaFileNameFromHandler_no_dot_witness :
    getLambdaFileNameFromHandler "python3.8" "handler" = Except.ok ".py" := by
  have h := getLambdaFileNameFromHandler_no_dot "python3.8" "handler" (by decide)
  exact h.1 (by decide)

/- ### Import pipeline lemmas and sample environments -/

/-- Sample run where download and extraction succeed but the handler file is
missing, so the post-import editor open fails. -/
def postStepFailureEnv : ImportEnv :=
  ImportEnv.mk true FetchOutcome.success true false true true

/- ### Claim C3 -/

/-- C3: evaluation of the faithful download embedding at the failing inputs.
A connection failure and a write failure leave the fetch step hung forever —
no fetch-classified error ever aborts the operation and nothing reaches the
catch clause. A non-2xx response resolves the download promise like a
success: the 70-percent increment is reported with the error body sitting in
`function.zip`, and the failure, if any, surfaces only later at the unzip
step as the generic `ImportError`. So the fetch step does not abort the
operation with a fetch-classified error as the claim states. -/
theorem downloadAndUnzipLambdaActual_transport_error_divergence :
    (downloadAndUnzipLambdaActual
      (ImportRunEnv.mk true FetchOutcome.connectionFailure true true true true true)).1 =
        AsyncResult.hung ∧
    (downloadAndUnzipLambdaActual
      (ImportRunEnv.mk true FetchOutcome.writeFailure true true true true true)).1 =
        AsyncResult.hung ∧
    (downloadAndUnzipLambdaActual
      (ImportRunEnv.mk true FetchOutcome.non2xxResponse false true true true true)).2 =
        [10, 70] ∧
    (downloadAndUnzipLambdaActual
      (ImportRunEnv.mk true FetchOutcome.non2xxResponse false true true true true)).1 =
        AsyncResult.returned (Except.error PipelineError.importError) :=
  ⟨rfl, rfl, rfl, rfl⟩

/- ### Claim C4 -/

/-- C4: evaluation of the faithful pipeline embedding at the failing inputs.
After a connection failure during the download, and after an error delivered
to the asynchronous extraction callback, the import pipeline never returns at
all — in particular it never reports `Failed` and no `ImportError` is ever
raised. Only the awaited failures — a GetFunction rejection and the
synchronous AdmZip constructor throw — reach the catch clause and yield
`Failed` as the claim demands. -/
theorem runImportLambdaActual_download_failure_divergence :
    (runImportLambdaActual
      (ImportRunEnv.mk true FetchOutcome.connectionFailure true true true true true)).1 =
        AsyncTelemetry.hung ∧
    (runImportLambdaActual
      (ImportRunEnv.mk true FetchOutcome.success true false true true true)).1 =
        AsyncTelemetry.hung ∧
    (runImportLambdaActual
      (ImportRunEnv.mk false FetchOutcome.success true true true true true)).1 =
        AsyncTelemetry.returned TelemetryResult.Failed ∧
    (runImportLambdaActual
      (ImportRunEnv.mk true FetchOutcome.success false true true true true)).1 =
        AsyncTelemetry.returned TelemetryResult.Failed :=
  ⟨rfl, rfl, rfl, rfl⟩

theorem openLambdaFile_error_plain (env : ImportEnv) (e : PipelineError)
    (h : openLambdaFile env = Except.error e) : e = PipelineError.plainError := by
  unfold openLambdaFile at h
  by_cases h1 : env.handlerFileExists <;> by_cases h2 : env.openDocumentOk <;>
    simp [h1, h2] at h <;> exact h.symm

theorem addLaunchConfigEntry_error_plain (env : ImportEnv) (e : PipelineError)
    (h : addLaunchConfigEntry env = Except.error e) : e = PipelineError.plainError := by
  unfold addLaunchConfigEntry at h
  by_cases h1 : env.addLaunchConfigOk
  · simp [h1] at h
  · simp [h1] at h
    exact h.symm

/- ### Claim C5 -/

/-- C5: when download and extraction succeed but a post-import convenience
step fails (the handler file cannot be opened, or the launch-config entry
cannot be added), the pipeline still reports `Succeeded`; such failures are
plain errors, never the `ImportError`. -/
theorem runImportLambda_post_import_failure_succeeds
    (env : ImportEnv)
    (hget : env.getFunctionOk = true) (hf : env.fetch = FetchOutcome.success)
    (hu : env.unzipOk = true)
    (hpost : env.handlerFileExists = false ∨ env.openDocumentOk = false ∨
      env.addLaunchConfigOk = false) :
    (runImportLambda env).1 = TelemetryResult.Succeeded ∧
    (∀ e, openLambdaFile env = Except.error e → e = PipelineError.plainError) ∧
    (∀ e, addLaunchConfigEntry env = Except.error e → e = PipelineError.plainError) := by
  refine ⟨?_, fun e he => openLambdaFile_error_plain env e he,
    fun e he => addLaunchConfigEntry_error_plain env e he⟩
  obtain ⟨g, f, u, hfe, od, alc⟩ := env
  simp only at hget hf hu
  subst hget hf hu
  cases hfe <;> cases od <;> cases alc <;> decide

/-- Witness for C5 on `postStepFailureEnv`. -/
theorem runImportLambda_post_import_failure_succeeds_witness :
    (runImportLambda postStepFailureEnv).1 = TelemetryResult.Succeeded :=
  (runImportLambda_post_import_failure_succeeds postStepFailureEnv
    rfl rfl rfl (Or.inl rfl)).1

/- ### Claim C9 -/

/-- C9: within one import run the cumulative progress reported to the sink is
monotonically non-decreasing and the sum of all increments never exceeds the
operation's declared total budget of 100 (the run is a notification with a
100-percent budget). -/
theorem runImportLambda_progress_monotone_bounded (env : ImportEnv) :
    nondecreasing (cumulativeSums (runImportLambda env).2) = true ∧
    (runImportLambda env).2.sum ≤ 100 := by
  obtain ⟨g, f, u, hfe, od, alc⟩ := env
  cases g <;> cases f <;> cases u <;> cases hfe <;> cases od <;> cases alc <;> decide

/- ### Upload pipeline lemmas and sample environments -/

theorem runUploadLambdaWithSamBuild_handlerPathChecked (env : UploadEnv) :
    (runUploadLambdaWithSamBuild env).handlerPathChecked = checkedHandlerPath env := by
  unfold runUploadLambdaWithSamBuild
  by_cases hc : handlerCheckCancelled env
  · simp [hc]
  · by_cases ht : env.templateGenOk
    · by_cases hb : env.buildOk
      · rcases hzz : zipAndUploadDirectory env
          (pathJoin (pathJoin env.tempDir "output") resourceName) with ⟨r, d, z⟩
        simp [hc, ht, hb, hzz]
      · simp [hc, ht, hb]
    · simp [hc, ht]

theorem zipAndUploadDirectory_result_ne_cancelled (env : UploadEnv) (p : String) :
    (zipAndUploadDirectory env p).1 ≠ TelemetryResult.Cancelled := by
  unfold zipAndUploadDirectory uploadZipBuffer
  by_cases hz : env.zipOk <;> by_cases hu : env.updateFunctionCodeOk <;> simp [hz, hu]

/-- Sample Strategy C run whose SAM build fails. -/
def buildFailureUploadEnv : UploadEnv :=
  UploadEnv.mk "python3.8" "app.handler" "d" (fun _ => true) false "t" true false true true

/-- Sample Strategy C run that succeeds end to end. -/
def successfulUploadEnv : UploadEnv :=
  UploadEnv.mk "python3.8" "app.handler" "d" (fun _ => true) false "t" true true true true

/-- Sample Strategy C run with runtime `nodejs` whose selected directory is
missing the handler file `app.js` and whose user declines the
confirmation. -/
def missingHandlerUploadEnv : UploadEnv :=
  UploadEnv.mk "nodejs" "app.handler" "d" (fun _ => false) false "t" true true true true

/- ### Claim C6 -/

/-- C6: in every Strategy C run whose external build invocation fails, the
remote code-update operation is never invoked, and whenever the build was
reached the attempt terminates as `Failed`. -/
theorem runUploadLambdaWithSamBuild_build_failure_no_deploy
    (env : UploadEnv) (hb : env.buildOk = false) :
    (runUploadLambdaWithSamBuild env).deployInvoked = false ∧
    ((runUploadLambdaWithSamBuild env).buildInvoked = true →
      (runUploadLambdaWithSamBuild env).result = TelemetryResult.Failed) := by
  unfold runUploadLambdaWithSamBuild
  by_cases hc : handlerCheckCancelled env <;> by_cases ht : env.templateGenOk <;>
    simp [hc, ht, hb]

/-- Witness for C6 on `buildFailureUploadEnv`. -/
theorem runUploadLambdaWithSamBuild_build_failure_no_deploy_witness :
    (runUploadLambdaWithSamBuild buildFailureUploadEnv).deployInvoked = false ∧
    ((runUploadLambdaWithSamBuild buildFailureUploadEnv).buildInvoked = true →
      (runUploadLambdaWithSamBuild buildFailureUploadEnv).result = TelemetryResult.Failed) :=
  runUploadLambdaWithSamBuild_build_failure_no_deploy buildFailureUploadEnv rfl

/- ### Claim C7 -/

/-- C7: in every Strategy C run with a successful build that reaches packing,
the directory packed into the upload archive is exactly the subdirectory of
the build-output directory `tempDir/output` named after the manifest's
resource name — and nothing else is ever packed. -/
theorem runUploadLambdaWithSamBuild_zips_resource_subdir
    (env : UploadEnv)
    (hnc : handlerCheckCancelled env = false)
    (ht : env.templateGenOk = true) (hb : env.buildOk = true)
    (hz : env.zipOk = true) :
    (runUploadLambdaWithSamBuild env).zippedDir =
      some (pathJoin (pathJoin env.tempDir "output") resourceName) ∧
    ∀ d : String, (runUploadLambdaWithSamBuild env).zippedDir = some d →
      d = pathJoin (pathJoin env.tempDir "output") resourceName := by
  have hmain : (runUploadLambdaWithSamBuild env).zippedDir =
      some (pathJoin (pathJoin env.tempDir "output") resourceName) := by
    unfold runUploadLambdaWithSamBuild
    by_cases hu : env.updateFunctionCodeOk <;>
      simp [hnc, ht, hb, zipAndUploadDirectory, hz, uploadZipBuffer, hu]
  refine ⟨hmain, fun d hd => ?_⟩
  rw [hmain] at hd
  exact (Option.some_inj.mp hd).symm

/-- Witness for C7 on `successfulUploadEnv`: the packed directory is
`t/output/tempResource`, not the build-output tree `t/output`. -/
theorem runUploadLambdaWithSamBuild_zips_resource_subdir_witness :
    (runUploadLambdaWithSamBuild successfulUploadEnv).zippedDir =
      some "t/output/tempResource" :=
  ((runUploadLambdaWithSamBuild_zips_resource_subdir successfulUploadEnv
    rfl rfl rfl rfl).1).trans rfl

/- ### Claim C8 -/

/-- C8: in Strategy C the handler check runs before the build: the resolved
handler file name is probed inside the selected directory; when the resolver
succeeds and the file is absent, a declined confirmation cancels the attempt
with neither the build nor the deploy collaborator invoked, while a resolver
failure (unsupported runtime) skips the check and the run proceeds — it is
never cancelled, and reaches the build whenever template generation
succeeds. -/
theorem runUploadLambdaWithSamBuild_handler_check (env : UploadEnv) :
    (∀ f : String, getLambdaFileNameFromHandler env.runtime env.handler = Except.ok f →
      (runUploadLambdaWithSamBuild env).handlerPathChecked =
        some (pathJoin env.parentDir f) ∧
      (env.fileExists (pathJoin env.parentDir f) = false →
        env.confirmMissingHandler = false →
        (runUploadLambdaWithSamBuild env).result = TelemetryResult.Cancelled ∧
        (runUploadLambdaWithSamBuild env).buildInvoked = false ∧
        (runUploadLambdaWithSamBuild env).deployInvoked = false)) ∧
    (∀ msg : String,
      getLambdaFileNameFromHandler env.runtime env.handler = Except.error msg →
      (runUploadLambdaWithSamBuild env).result ≠ TelemetryResult.Cancelled ∧
      (env.templateGenOk = true →
        (runUploadLambdaWithSamBuild env).buildInvoked = true)) := by
  constructor
  · intro f hres
    have hcp : checkedHandlerPath env = some (pathJoin env.parentDir f) := by
      simp [checkedHandlerPath, hres]
    refine ⟨by rw [runUploadLambdaWithSamBuild_handlerPathChecked, hcp], ?_⟩
    intro hfe hcu
    have hcanc : handlerCheckCancelled env = true := by
      simp [handlerCheckCancelled, hcp, hfe, hcu]
    unfold runUploadLambdaWithSamBuild
    simp [hcanc]
  · intro msg hres
    have hcp : checkedHandlerPath env = none := by
      simp [checkedHandlerPath, hres]
    have hcanc : handlerCheckCancelled env = false := by
      simp [handlerCheckCancelled, hcp]
    have hne := zipAndUploadDirectory_result_ne_cancelled env
      (pathJoin (pathJoin env.tempDir "output") resourceName)
    constructor
    · unfold runUploadLambdaWithSamBuild
      by_cases ht : env.templateGenOk
      · by_cases hb : env.buildOk
        · rcases hzz : zipAndUploadDirectory env
            (pathJoin (pathJoin env.tempDir "output") resourceName) with ⟨r, dd, z⟩
          rw [hzz] at hne
          simp only at hne
          simp [hcanc, ht, hb, hzz]
          exact hne
        · simp [hcanc, ht, hb]
      · simp [hcanc, ht]
    · intro ht
      unfold runUploadLambdaWithSamBuild
      by_cases hb : env.buildOk
      · rcases hzz : zipAndUploadDirectory env
          (pathJoin (pathJoin env.tempDir "output") resourceName) with ⟨r, dd, z⟩
        simp [hcanc, ht, hb, hzz]
      · simp [hcanc, ht, hb]

/-- Witness for C8 on `missingHandlerUploadEnv`: the missing handler file
plus a declined confirmation cancels the run before build and deploy. -/
theorem runUploadLambdaWithSamBuild_handler_check_witness :
    (runUploadLambdaWithSamBuild missingHandlerUploadEnv).result = TelemetryResult.Cancelled ∧
    (runUploadLambdaWithSamBuild missingHandlerUploadEnv).buildInvoked = false ∧
    (runUploadLambdaWithSamBuild missingHandlerUploadEnv).deployInvoked = false := by
  have h := runUploadLambdaWithSamBuild_handler_check missingHandlerUploadEnv
  exact (h.1 "app.js" rfl).2 rfl rfl

end AwsToolkit
